import Mathlib

/-!
# LyriStudy backend — verification of the lyrics-analysis pipeline

Shallow embedding of the FastAPI backend in `backend/main.py`,
`backend/models.py` and `backend/gemini_service.py`:

* the per-user daily rate limiter (`main.py` lines 196–215),
* the analyze orchestration (`main.py` `analyze_lyrics`, lines 189–279),
* the persistence of a Song with its LyricsLines and VocabCards
  (`main.py` lines 235–277, cascade declared in `models.py`),
* the owner-scoped read/delete/toggle endpoints (`main.py` lines 289–370),
* the markdown-fence sanitization of the AI response
  (`gemini_service.py` lines 74–87).

Machine integers are modelled as `Nat`/`Int`; `datetime.utcnow().date()` is
abstracted to a `Nat` calendar-day ordinal (only day equality is ever used by
the code).  A FastAPI request either commits its session or raises an
`HTTPException`, in which case the session is closed without commit and the
stored state is unchanged; operations are therefore modelled as functions
returning a result (`Except ApiError α` mirrors raise-vs-return) together
with the post-request database state.
-/

namespace LyriStudy

/-- Error taxonomy of the endpoints: each constructor corresponds to one
HTTP status raised in `main.py` (404, 403, 429 for the user quota, 429 for
the upstream AI quota, 500). -/
inductive ApiError where
  | notFound
  | forbidden
  | quotaExceeded
  | aiQuotaExceeded
  | aiFailed (msg : String)
deriving Repr, DecidableEq

/-! ## Data model (`models.py`, and the User rate-limit columns)

The `User` class lives in the models module; its rate-limit columns are
reconstructed from their uses in `main.py` lines 197–215
(`daily_analysis_count`, `last_analysis_date`) — only the `.date()`
projection of the timestamp is ever read, so it is kept as an optional
calendar day. -/

/-- Per-user rate-limit state: `daily_analysis_count` and the calendar day of
`last_analysis_date` (`none` models a SQL NULL). -/
structure RLState where
  daily_analysis_count : Nat
  last_analysis_date : Option Nat
deriving Repr, DecidableEq

/-- `models.py` `Song` (the `created_at` timestamp plays no role in the
claims under study and is omitted). -/
structure Song where
  id : Nat
  title : String
  artist : String
  source_text : String
  language : String
  user_id : Nat
deriving Repr, DecidableEq

/-- `models.py` `LyricsLine`. -/
structure LyricsLine where
  id : Nat
  song_id : Nat
  line_index : Int
  original_text : String
  translation_text : String
  grammar_notes : String
deriving Repr, DecidableEq

/-- `models.py` `VocabCard` (`is_saved` defaults to `false` on creation). -/
structure VocabCard where
  id : Nat
  song_id : Nat
  word : String
  «lemma» : String
  reading : String
  meaning : String
  part_of_speech : String
  example_sentence : String
  example_translation : String
  is_saved : Bool
deriving Repr, DecidableEq

/-- The relational store: the three owned tables, plus the next free
auto-increment primary key (shared across tables for simplicity; only
freshness of new ids matters). -/
structure DB where
  songs : List Song
  lines : List LyricsLine
  vocab_cards : List VocabCard
  next_id : Nat
deriving Repr, DecidableEq

/-- The empty database. -/
def DB.empty : DB := ⟨[], [], [], 0⟩

/-- Lines of a song, as materialized by the ORM relationship
`Song.lines` (all `LyricsLine` rows whose `song_id` is the song's id). -/
def linesOfSong (db : DB) (sid : Nat) : List LyricsLine :=
  db.lines.filter (fun l => l.song_id == sid)

/-- Vocab cards of a song, via the ORM relationship `Song.vocab_cards`. -/
def vocabOfSong (db : DB) (sid : Nat) : List VocabCard :=
  db.vocab_cards.filter (fun v => v.song_id == sid)

/-! ## AI analysis result (`gemini_service.py` JSON schema)

The parsed JSON object returned by `analyze_lyrics_with_gemini`.  Keys read
with `dict.get(k, default)` in `main.py` are modelled as `Option` fields
(`none` = key absent); keys read with `dict.get(k)` and required by the
schema are modelled as plain fields. -/

/-- One entry of the `lines` array of the AI response. -/
structure LineData where
  line_index : Int
  original_text : String
  translation_text : String
  grammar_notes : Option String
deriving Repr, DecidableEq

/-- One entry of the `vocab` array of the AI response. -/
structure VocabData where
  word : String
  «lemma» : Option String
  reading : Option String
  meaning : Option String
  part_of_speech : Option String
  example_sentence : Option String
  example_translation : Option String
deriving Repr, DecidableEq

/-- The whole parsed AI response (`title`/`artist` may be absent). -/
structure AnalysisResult where
  title : Option String
  artist : Option String
  lines : List LineData
  vocab : List VocabData
deriving Repr, DecidableEq

/-- Request body of `POST /api/analyze` (`main.py` `AnalyzeRequest`). -/
structure AnalyzeRequest where
  lyrics : String
  language : String
  title : Option String
  artist : Option String
deriving Repr, DecidableEq

/-! ## Rate limiter (`main.py` lines 186–215) -/

/-- Default of the `DAILY_ANALYSIS_LIMIT` environment variable
(`main.py` line 187); the functions below take the limit as a parameter. -/
def DAILY_ANALYSIS_LIMIT : Nat := 5

/-- `main.py` lines 199–202: if `last_analysis_date` is NULL or its date
differs from today, reset the counter to 0 and stamp today. -/
def resetIfNewDay (today : Nat) (u : RLState) : RLState :=
  match u.last_analysis_date with
  | none => { daily_analysis_count := 0, last_analysis_date := some today }
  | some d =>
      if d ≠ today then { daily_analysis_count := 0, last_analysis_date := some today }
      else u

/-- `main.py` lines 196–215 as one gate: reset for a new day, reject with
429 when the (post-reset) counter has reached the limit (`none`; the session
is closed without commit, so the stored row is unchanged), otherwise
increment the counter, stamp the timestamp and commit (`some` of the
committed row). -/
def rateLimitGate (limit today : Nat) (u : RLState) : Option RLState :=
  let u1 := resetIfNewDay today u
  if limit ≤ u1.daily_analysis_count then none
  else some { daily_analysis_count := u1.daily_analysis_count + 1,
              last_analysis_date := some today }

/-! ## Classification of AI-call failures (`main.py` lines 222–233)

`str.startswith` / `in` / `str.lower` are modelled on `List Char`. -/

/-- Python `s.startswith(p)`, on character lists (first argument is the
pattern). -/
def startsWithL : List Char → List Char → Bool
  | [], _ => true
  | _ :: _, [] => false
  | p :: ps, c :: cs => p == c && startsWithL ps cs

/-- Python `p in s` (substring test), on character lists. -/
def containsL (needle : List Char) : List Char → Bool
  | [] => startsWithL needle []
  | c :: cs => startsWithL needle (c :: cs) || containsL needle cs

/-- Python `s.lower()`, on character lists. -/
def lowerL (s : List Char) : List Char := s.map Char.toLower

/-- `main.py` line 224: `"429" in error_msg or "quota" in error_msg.lower()`. -/
def isQuotaMessage (msg : String) : Bool :=
  containsL "429".data msg.data || containsL "quota".data (lowerL msg.data)

/-- Python `s.strip()` (whitespace trim on both ends), on character lists. -/
def pyStrip (s : List Char) : List Char :=
  ((s.dropWhile Char.isWhitespace).reverse.dropWhile Char.isWhitespace).reverse

/-- Python `s.strip()` on strings. -/
def pyStripS (s : String) : String := String.mk (pyStrip s.data)

/-! ## Persistence of an analysis result (`main.py` lines 235–277) -/

/-- The title/artist resolution of `main.py` lines 237–238:
`request.x if request.x and request.x.strip() else data.get("x", "Unknown")`.
A Python string is truthy iff non-empty, and `strip()` of it is truthy iff
it is not all-whitespace; both inline expressions use the same `"Unknown"`
fallback for an absent key. -/
def resolveMeta (supplied aiVal : Option String) : String :=
  match supplied with
  | some s => if s ≠ "" ∧ pyStripS s ≠ "" then s else aiVal.getD "Unknown"
  | none => aiVal.getD "Unknown"

/-- Rows built by the `Add Lines` loop (`main.py` lines 252–260): one
`LyricsLine` per entry of `data["lines"]`, in order, with `line_index`
copied verbatim from the AI entry; primary keys are allocated sequentially
from `nid`. -/
def mkLines (nid sid : Nat) : List LineData → List LyricsLine
  | [] => []
  | ld :: rest =>
      { id := nid, song_id := sid, line_index := ld.line_index,
        original_text := ld.original_text,
        translation_text := ld.translation_text,
        grammar_notes := ld.grammar_notes.getD "" } :: mkLines (nid + 1) sid rest

/-- Rows built by the `Add Vocab` loop (`main.py` lines 263–274);
`is_saved` takes its model default `false`. -/
def mkVocab (nid sid : Nat) : List VocabData → List VocabCard
  | [] => []
  | vd :: rest =>
      { id := nid, song_id := sid, word := vd.word,
        «lemma» := vd.lemma.getD "", reading := vd.reading.getD "",
        meaning := vd.meaning.getD "",
        part_of_speech := vd.part_of_speech.getD "",
        example_sentence := vd.example_sentence.getD "",
        example_translation := vd.example_translation.getD "",
        is_saved := false } :: mkVocab (nid + 1) sid rest

/-- First commit of the persistence phase (`main.py` lines 240–249): the
`Song` row alone is added and committed (the commit is what makes its
auto-increment id available via `session.refresh`). -/
def commitSong (db : DB) (uid : Nat) (req : AnalyzeRequest)
    (data : AnalysisResult) : DB × Song :=
  let song : Song :=
    { id := db.next_id,
      title := resolveMeta req.title data.title,
      artist := resolveMeta req.artist data.artist,
      source_text := req.lyrics,
      language := req.language,
      user_id := uid }
  ({ db with songs := db.songs ++ [song], next_id := db.next_id + 1 }, song)

/-- Second commit of the persistence phase (`main.py` lines 251–276): all
lines and all vocab cards are added and committed together. -/
def commitLinesVocab (db : DB) (sid : Nat) (data : AnalysisResult) : DB :=
  let newLines := mkLines db.next_id sid data.lines
  let newVocab := mkVocab (db.next_id + data.lines.length) sid data.vocab
  { db with
    lines := db.lines ++ newLines,
    vocab_cards := db.vocab_cards ++ newVocab,
    next_id := db.next_id + data.lines.length + data.vocab.length }

/-- The two-phase persistence of `analyze_lyrics` (`main.py` lines 235–277):
`session.commit()` at line 248 (Song alone), then `session.commit()` at
line 276 (lines and vocab).  `second_commit_runs = false` models a failure
between the two commits (the request dies after the Song is durable but
before its children are): the database is then left in the state of the
first commit. -/
def saveAnalysis (db : DB) (uid : Nat) (req : AnalyzeRequest)
    (data : AnalysisResult) (second_commit_runs : Bool) : DB × Song :=
  let (db1, song) := commitSong db uid req data
  if second_commit_runs then (commitLinesVocab db1 song.id data, song)
  else (db1, song)

/-! ## The analyze endpoint (`main.py` lines 189–279)

The external AI call is an opaque oracle: its outcome is a parameter
`ai : Except String AnalysisResult` (`.error msg` = the service raised an
exception with message `msg`).  The function returns the HTTP-level result
together with the committed user row and database after the request. -/

/-- `POST /api/analyze`: rate-limit gate, AI call, two-phase persistence.
On the 429 quota path the session is rolled back, so user row and database
are unchanged; on an AI failure the already-committed incremented counter
stays (the revert at `main.py` lines 229–232 is commented out) and the
database is unchanged; on success the song with its lines and vocab is
committed. -/
def analyze_lyrics (limit uid : Nat) (req : AnalyzeRequest) (db : DB)
    (u : RLState) (today : Nat) (ai : Except String AnalysisResult) :
    Except ApiError Song × RLState × DB :=
  match rateLimitGate limit today u with
  | none => (.error .quotaExceeded, u, db)
  | some u' =>
      match ai with
      | .error msg =>
          if isQuotaMessage msg then (.error .aiQuotaExceeded, u', db)
          else (.error (.aiFailed msg), u', db)
      | .ok data =>
          let r := saveAnalysis db uid req data true
          (.ok r.2, u', r.1)

/-! ## Owner-scoped reads, deletes and toggles (`main.py` lines 289–370) -/

/-- `GET /api/song/{id}` (`main.py` lines 289–301): 404 when the row is
absent, 403 when it belongs to another user, the song otherwise. -/
def get_song (db : DB) (uid sid : Nat) : Except ApiError Song :=
  match db.songs.find? (fun s => s.id == sid) with
  | none => .error .notFound
  | some song =>
      if song.user_id ≠ uid then .error .forbidden
      else .ok song

/-- `DELETE /api/song/{id}` (`main.py` lines 303–317): same 404/403 split;
on success `session.delete(song)` cascades to the song's lines and vocab
cards (`cascade="all, delete-orphan"` on both relationships in
`models.py`).  Second component: the database after the request (unchanged
when an error is raised, nothing being committed). -/
def delete_song (db : DB) (uid sid : Nat) : Except ApiError Unit × DB :=
  match db.songs.find? (fun s => s.id == sid) with
  | none => (.error .notFound, db)
  | some song =>
      if song.user_id ≠ uid then (.error .forbidden, db)
      else
        (.ok (),
         { db with
           songs := db.songs.filter (fun s => s.id != sid),
           lines := db.lines.filter (fun l => l.song_id != sid),
           vocab_cards := db.vocab_cards.filter (fun v => v.song_id != sid) })

/-- `POST /api/vocab/toggle_save/{id}` (`main.py` lines 319–337): 404 when
the card is absent; 403 when its parent song is absent or owned by another
user (`if not song or song.user_id != user.id`); otherwise `is_saved` is
flipped and committed.  Second component: the database after the request
(unchanged when an error is raised). -/
def toggle_save_vocab (db : DB) (uid vid : Nat) :
    Except ApiError VocabCard × DB :=
  match db.vocab_cards.find? (fun c => c.id == vid) with
  | none => (.error .notFound, db)
  | some card =>
      match db.songs.find? (fun s => s.id == card.song_id) with
      | none => (.error .forbidden, db)
      | some song =>
          if song.user_id ≠ uid then (.error .forbidden, db)
          else
            let card' := { card with is_saved := !card.is_saved }
            (.ok card',
             { db with
               vocab_cards :=
                 db.vocab_cards.map (fun c => if c.id == vid then card' else c) })

/-- `GET /api/vocab/saved` (`main.py` lines 339–370): vocab cards joined
with their parent song, filtered to `is_saved` and to songs of the current
user. -/
def get_saved_vocab (db : DB) (uid : Nat) : List (VocabCard × Song) :=
  (db.vocab_cards.filterMap
      (fun v => (db.songs.find? (fun s => s.id == v.song_id)).map (fun s => (v, s)))).filter
    (fun p => p.1.is_saved && p.2.user_id == uid)

/-! ## Sanitization of the AI textual response (`gemini_service.py` 74–87) -/

/-- Python `s.endswith(q)`, on character lists. -/
def endsWithL (q s : List Char) : Bool := startsWithL q.reverse s.reverse

/-- The literal json-language fence marker stripped at
`gemini_service.py` line 79. -/
def fenceJson : List Char := "```json".data

/-- The bare fence marker (`gemini_service.py` lines 81 and 84). -/
def fenceBare : List Char := "```".data

/-- `gemini_service.py` lines 79–82: drop a leading fence marker
(7 characters for the json-language fence, else 3 for a bare fence). -/
def stripLeadingFence (s : List Char) : List Char :=
  if startsWithL fenceJson s then s.drop 7
  else if startsWithL fenceBare s then s.drop 3
  else s

/-- `gemini_service.py` lines 84–85: drop a trailing bare fence marker
(`text_response[:-3]`). -/
def stripTrailingFence (s : List Char) : List Char :=
  if endsWithL fenceBare s then s.take (s.length - 3) else s

/-- The fence-stripping step applied between the two whitespace strips. -/
def stripFences (s : List Char) : List Char :=
  stripTrailingFence (stripLeadingFence s)

/-- The full text pipeline of `gemini_service.py` lines 76–87:
`response.text.strip()`, fence stripping, and the final `.strip()` fed to
`json.loads`. -/
def sanitizeResponse (raw : List Char) : List Char :=
  pyStrip (stripFences (pyStrip raw))

/-! ## Concrete fixtures used by witnesses and counterexamples -/

/-- Fixture: a song owned by user 2 (primary key 10). -/
def songOfUser2 : Song :=
  { id := 10, title := "Song B", artist := "B", source_text := "text",
    language := "en", user_id := 2 }

/-- Fixture: a vocab card of song 10 (primary key 20), not yet saved. -/
def cardOfSong10 : VocabCard :=
  { id := 20, song_id := 10, word := "word", «lemma» := "word", reading := "",
    meaning := "", part_of_speech := "", example_sentence := "",
    example_translation := "", is_saved := false }

/-- Fixture: an orphaned vocab card (primary key 21) whose `song_id` 99
matches no song. -/
def orphanCard : VocabCard :=
  { id := 21, song_id := 99, word := "orphan", «lemma» := "", reading := "",
    meaning := "", part_of_speech := "", example_sentence := "",
    example_translation := "", is_saved := true }

/-- Fixture database holding the three rows above. -/
def dbFix : DB :=
  { songs := [songOfUser2], lines := [], vocab_cards := [cardOfSong10, orphanCard],
    next_id := 30 }

/-! ## C6 — 404/403 split of the song read and delete endpoints -/

/-- C6: for every user and song id, `get_song` and `delete_song` answer
`notFound` when no song with that id exists, and `forbidden` (never the
data, and never `notFound`) when the song exists but belongs to a
different user; in both cases `delete_song` leaves the database unchanged. -/
theorem C6_get_delete_ownership_split (db : DB) (uid sid : Nat) :
    (db.songs.find? (fun s => s.id == sid) = none →
        get_song db uid sid = .error .notFound ∧
        delete_song db uid sid = (.error .notFound, db))
  ∧ (∀ song, db.songs.find? (fun s => s.id == sid) = some song →
        song.user_id ≠ uid →
        get_song db uid sid = .error .forbidden ∧
        delete_song db uid sid = (.error .forbidden, db)) := by
  constructor
  · intro h
    simp [get_song, delete_song, h]
  · intro song h hne
    simp [get_song, delete_song, h, hne]

/-- C6 witness: user 1 probing song 10 (owned by user 2) gets `forbidden`
from both endpoints, and probing the absent id 99 gets `notFound`. -/
theorem C6_get_delete_ownership_split_witness :
    (get_song dbFix 1 10 = .error .forbidden ∧
      delete_song dbFix 1 10 = (.error .forbidden, dbFix)) ∧
    (get_song dbFix 1 99 = .error .notFound ∧
      delete_song dbFix 1 99 = (.error .notFound, dbFix)) :=
  ⟨(C6_get_delete_ownership_split dbFix 1 10).2 songOfUser2 (by rfl) (by decide),
   (C6_get_delete_ownership_split dbFix 1 99).1 (by rfl)⟩

/-! ## C10 — error cases of the vocab toggle -/

/-- C10: `toggle_save_vocab` answers `notFound` when the card is absent,
and `forbidden` when the card exists but its parent song is absent (an
orphaned card) or owned by a different user; in all three failure cases
the database — hence every card's `is_saved` flag — is unchanged. -/
theorem C10_toggle_error_cases (db : DB) (uid vid : Nat) :
    (db.vocab_cards.find? (fun c => c.id == vid) = none →
        toggle_save_vocab db uid vid = (.error .notFound, db))
  ∧ (∀ card, db.vocab_cards.find? (fun c => c.id == vid) = some card →
        db.songs.find? (fun s => s.id == card.song_id) = none →
        toggle_save_vocab db uid vid = (.error .forbidden, db))
  ∧ (∀ card song, db.vocab_cards.find? (fun c => c.id == vid) = some card →
        db.songs.find? (fun s => s.id == card.song_id) = some song →
        song.user_id ≠ uid →
        toggle_save_vocab db uid vid = (.error .forbidden, db)) := by
  refine ⟨fun h => ?_, fun card h hs => ?_, fun card song h hs hne => ?_⟩
  · simp [toggle_save_vocab, h]
  · simp [toggle_save_vocab, h, hs]
  · simp [toggle_save_vocab, h, hs, hne]

/-- C10 witness: toggling the orphaned card 21 is `forbidden` (not
`notFound`), toggling the absent id 99 is `notFound`, and toggling card 20
as the non-owner user 1 is `forbidden`; the database is unchanged each
time. -/
theorem C10_toggle_error_cases_witness :
    toggle_save_vocab dbFix 1 21 = (.error .forbidden, dbFix) ∧
    toggle_save_vocab dbFix 1 99 = (.error .notFound, dbFix) ∧
    toggle_save_vocab dbFix 1 20 = (.error .forbidden, dbFix) :=
  ⟨(C10_toggle_error_cases dbFix 1 21).2.1 orphanCard (by rfl) (by rfl),
   (C10_toggle_error_cases dbFix 1 99).1 (by rfl),
   (C10_toggle_error_cases dbFix 1 20).2.2 cardOfSong10 songOfUser2
     (by rfl) (by rfl) (by decide)⟩

/-! ## C7 — the vocab toggle is an involution touching only `is_saved` -/

/-- C7: whenever `toggle_save_vocab` succeeds on a card, the returned card
differs from the stored one only in its `is_saved` flag (which is negated),
and toggling again on the resulting database succeeds and returns exactly
the original card — `is_saved` is back to its original value and no other
field ever changed. -/
theorem C7_toggle_involution (db : DB) (uid vid : Nat) (c1 : VocabCard)
    (h1 : (toggle_save_vocab db uid vid).1 = .ok c1) :
    ∃ c0, db.vocab_cards.find? (fun c => c.id == vid) = some c0 ∧
      c1 = { c0 with is_saved := !c0.is_saved } ∧
      (toggle_save_vocab (toggle_save_vocab db uid vid).2 uid vid).1 = .ok c0 := by
  cases hfind : db.vocab_cards.find? (fun c => c.id == vid) with
  | none => simp [toggle_save_vocab, hfind] at h1
  | some c0 =>
    cases hsong : db.songs.find? (fun s => s.id == c0.song_id) with
    | none => simp [toggle_save_vocab, hfind, hsong] at h1
    | some s =>
      by_cases hu : s.user_id ≠ uid
      · simp [toggle_save_vocab, hfind, hsong, hu] at h1
      · have hcid : c0.id = vid := by
          have h := List.find?_some hfind
          simpa using h
        have hc1 : c1 = { c0 with is_saved := !c0.is_saved } := by
          simp [toggle_save_vocab, hfind, hsong, hu] at h1
          exact h1.symm
        refine ⟨c0, by simp [hfind], hc1, ?_⟩
        have hdb2 : (toggle_save_vocab db uid vid).2 =
            { db with vocab_cards :=
                db.vocab_cards.map (fun c => if c.id == vid then c1 else c) } := by
          simp [toggle_save_vocab, hfind, hsong, hu, hc1]
        have hfind2 :
            (db.vocab_cards.map (fun c => if c.id == vid then c1 else c)).find?
              (fun c => c.id == vid) = some c1 := by
          rw [List.find?_map]
          have hpred : ((fun c : VocabCard => c.id == vid) ∘
              (fun c => if c.id == vid then c1 else c)) = (fun c => c.id == vid) := by
            funext c
            by_cases hc : c.id = vid
            · simp [Function.comp, hc, hc1, hcid]
            · simp [Function.comp, hc]
          rw [hpred, hfind]
          simp [hc1, hcid]
        rw [hdb2]
        simp only [toggle_save_vocab, hfind2]
        have : c1.song_id = c0.song_id := by rw [hc1]
        rw [this, hsong]
        simp [hu, hc1, Bool.not_not]


/-- C7 witness: the owner (user 2) toggles card 20; the stored card is
found, the first toggle only flips `is_saved` to `true`, and the second
toggle returns exactly the original card. -/
theorem C7_toggle_involution_witness :
    ∃ c0, dbFix.vocab_cards.find? (fun c => c.id == 20) = some c0 ∧
      ({ cardOfSong10 with is_saved := true } : VocabCard)
        = { c0 with is_saved := !c0.is_saved } ∧
      (toggle_save_vocab (toggle_save_vocab dbFix 2 20).2 2 20).1 = .ok c0 :=
  C7_toggle_involution dbFix 2 20 { cardOfSong10 with is_saved := true } (by rfl)

/-! ## C9 — cascading delete and the parent-song invariant -/

/-- No orphan records: every line and vocab card has an existing parent
song (§3 of the design, enforced by the `cascade="all, delete-orphan"`
relationships of `models.py`). -/
def parentInvariant (db : DB) : Prop :=
  (∀ l ∈ db.lines, ∃ s ∈ db.songs, s.id = l.song_id) ∧
  (∀ v ∈ db.vocab_cards, ∃ s ∈ db.songs, s.id = v.song_id)

/-- Every pair listed by `GET /api/vocab/saved` joins a card that is a row
of the store. -/
theorem mem_get_saved_vocab {db : DB} {uid : Nat} {p : VocabCard × Song}
    (hp : p ∈ get_saved_vocab db uid) : p.1 ∈ db.vocab_cards := by
  unfold get_saved_vocab at hp
  have hp1 := (List.mem_filter.mp hp).1
  rcases List.mem_filterMap.mp hp1 with ⟨v, hv, hfv⟩
  rcases Option.map_eq_some'.mp hfv with ⟨s, _, hs2⟩
  have : v = p.1 := by rw [← hs2]
  rwa [← this]

/-- C9: when the owner deletes a song, every one of its lines and vocab
cards is removed with it: the resulting store holds no line or card with
that `song_id`, a subsequent `GET /api/vocab/saved` (for any user) lists
none of them, and the no-orphan parent invariant is preserved. -/
theorem C9_delete_cascades (db : DB) (uid sid : Nat) (db' : DB)
    (h : delete_song db uid sid = (.ok (), db')) :
    (∀ l ∈ db'.lines, l.song_id ≠ sid)
  ∧ (∀ v ∈ db'.vocab_cards, v.song_id ≠ sid)
  ∧ (∀ s ∈ db'.songs, s.id ≠ sid)
  ∧ (∀ uid' : Nat, ∀ p ∈ get_saved_vocab db' uid', p.1.song_id ≠ sid)
  ∧ (parentInvariant db → parentInvariant db') := by
  cases hfind : db.songs.find? (fun s => s.id == sid) with
  | none => simp [delete_song, hfind] at h
  | some song =>
    by_cases hu : song.user_id ≠ uid
    · simp [delete_song, hfind, hu] at h
    · have hdb' : db' =
          { db with
            songs := db.songs.filter (fun s => s.id != sid),
            lines := db.lines.filter (fun l => l.song_id != sid),
            vocab_cards := db.vocab_cards.filter (fun v => v.song_id != sid) } := by
        simp [delete_song, hfind, hu] at h
        exact h.symm
      subst hdb'
      refine ⟨?_, ?_, ?_, ?_, ?_⟩
      · intro l hl
        have := (List.mem_filter.mp hl).2
        simpa using this
      · intro v hv
        have := (List.mem_filter.mp hv).2
        simpa using this
      · intro s hs
        have := (List.mem_filter.mp hs).2
        simpa using this
      · intro uid' p hp
        have hmem := mem_get_saved_vocab hp
        have := (List.mem_filter.mp hmem).2
        simpa using this
      · rintro ⟨hl, hv⟩
        constructor
        · intro l hlmem
          have hl1 := (List.mem_filter.mp hlmem).1
          have hl2 : l.song_id ≠ sid := by
            have := (List.mem_filter.mp hlmem).2
            simpa using this
          rcases hl l hl1 with ⟨s, hsmem, hsid⟩
          refine ⟨s, List.mem_filter.mpr ⟨hsmem, ?_⟩, hsid⟩
          simpa [hsid] using hl2
        · intro v hvmem
          have hv1 := (List.mem_filter.mp hvmem).1
          have hv2 : v.song_id ≠ sid := by
            have := (List.mem_filter.mp hvmem).2
            simpa using this
          rcases hv v hv1 with ⟨s, hsmem, hsid⟩
          refine ⟨s, List.mem_filter.mpr ⟨hsmem, ?_⟩, hsid⟩
          simpa [hsid] using hv2

/-- The store left after user 2 deletes song 10 from the fixture store:
both the song row and its card 20 are gone, the unrelated orphan card 21
remains. -/
def dbAfterDelete : DB :=
  { songs := [], lines := [], vocab_cards := [orphanCard], next_id := 30 }

/-- C9 witness: the owner (user 2) deletes song 10; the cascade removes
card 20 and the theorem's conclusions hold of the resulting store. -/
theorem C9_delete_cascades_witness :
    (∀ l ∈ dbAfterDelete.lines, l.song_id ≠ 10)
  ∧ (∀ v ∈ dbAfterDelete.vocab_cards, v.song_id ≠ 10)
  ∧ (∀ s ∈ dbAfterDelete.songs, s.id ≠ 10)
  ∧ (∀ uid' : Nat, ∀ p ∈ get_saved_vocab dbAfterDelete uid', p.1.song_id ≠ 10)
  ∧ (parentInvariant dbFix → parentInvariant dbAfterDelete) :=
  C9_delete_cascades dbFix 2 10 dbAfterDelete (by rfl)

/-! ## C2, C3 — the daily quota -/

/-- Effect of one analysis attempt on the stored user row: the committed
row when the gate admits the attempt, the unchanged row when it raises 429
(rolled-back session). -/
def attemptStep (limit today : Nat) (u : RLState) : RLState :=
  (rateLimitGate limit today u).getD u

/-- Stored user row after `n` analysis attempts on day `today`. -/
def attemptsOn (limit today : Nat) : Nat → RLState → RLState
  | 0, u => u
  | n + 1, u => attemptStep limit today (attemptsOn limit today n u)

/-- A row whose stamp is not today's date is reset to a zero counter
stamped today. -/
theorem resetIfNewDay_fresh (d : Nat) (u : RLState)
    (hf : u.last_analysis_date ≠ some d) :
    resetIfNewDay d u = ⟨0, some d⟩ := by
  unfold resetIfNewDay
  cases hu : u.last_analysis_date with
  | none => rfl
  | some d' =>
    have hne : d' ≠ d := fun h => hf (by rw [hu, h])
    simp [hne]

/-- A row already stamped today is left as is by the reset step. -/
theorem resetIfNewDay_today (d c : Nat) :
    resetIfNewDay d ⟨c, some d⟩ = ⟨c, some d⟩ := by
  simp [resetIfNewDay]

/-- After `k` admitted attempts on a fresh day the stored counter is
exactly `k`, stamped with that day. -/
theorem attemptsOn_fresh (limit d : Nat) (u : RLState)
    (hf : u.last_analysis_date ≠ some d) :
    ∀ k, 1 ≤ k → k ≤ limit → attemptsOn limit d k u = ⟨k, some d⟩ := by
  intro k
  induction k with
  | zero => omega
  | succ k ih =>
    intro _ hk1
    cases Nat.eq_zero_or_pos k with
    | inl hk0 =>
      subst hk0
      show attemptStep limit d (attemptsOn limit d 0 u) = _
      have hlt : ¬ limit ≤ 0 := by omega
      simp [attemptsOn, attemptStep, rateLimitGate, resetIfNewDay_fresh d u hf, hlt]
    | inr hkpos =>
      have hrec := ih hkpos (by omega)
      show attemptStep limit d (attemptsOn limit d k u) = _
      have hlt : ¬ limit ≤ k := by omega
      simp [hrec, attemptStep, rateLimitGate, resetIfNewDay_today, hlt]

/-- C2: starting from a user row not stamped with day `d` (a fresh
calendar day — the counter is then reset to 0 before the limit check),
each of the first `limit` analysis attempts on day `d` passes the gate,
while the `(limit+1)`th attempt that day returns 429 `quotaExceeded` with
user row and database unchanged, and its outcome is the same for every AI
oracle — the AI client is not invoked.  The third conjunct justifies
`attemptsOn` as the row evolution across arbitrary attempts: every
`analyze` call, whatever its AI outcome (success or failure), commits
exactly the gate-step row. -/
theorem C2_daily_limit (limit d uid : Nat) (u : RLState)
    (hf : u.last_analysis_date ≠ some d) :
    (∀ k, k < limit →
        (rateLimitGate limit d (attemptsOn limit d k u)).isSome = true)
  ∧ (∀ req db ai,
        analyze_lyrics limit uid req db (attemptsOn limit d limit u) d ai
          = (.error .quotaExceeded, attemptsOn limit d limit u, db))
  ∧ (∀ u0 req db ai,
        (analyze_lyrics limit uid req db u0 d ai).2.1 = attemptStep limit d u0)
  ∧ (resetIfNewDay d u).daily_analysis_count = 0 := by
  refine ⟨?_, ?_, ?_, ?_⟩
  · intro k hk
    cases Nat.eq_zero_or_pos k with
    | inl hk0 =>
      subst hk0
      have hlt : ¬ limit ≤ 0 := by omega
      simp [attemptsOn, rateLimitGate, resetIfNewDay_fresh d u hf, hlt]
    | inr hkpos =>
      have hrec := attemptsOn_fresh limit d u hf k hkpos (by omega)
      have hlt : ¬ limit ≤ k := by omega
      simp [hrec, rateLimitGate, resetIfNewDay_today, hlt]
  · intro req db ai
    cases Nat.eq_zero_or_pos limit with
    | inl h0 =>
      subst h0
      simp [attemptsOn, analyze_lyrics, rateLimitGate,
        resetIfNewDay_fresh d u hf]
    | inr hpos =>
      have hrec := attemptsOn_fresh limit d u hf limit hpos (le_refl limit)
      rw [hrec]
      simp [analyze_lyrics, rateLimitGate, resetIfNewDay_today]
  · intro u0 req db ai
    cases hg : rateLimitGate limit d u0 with
    | none => simp [analyze_lyrics, hg, attemptStep]
    | some u' =>
      cases ai with
      | error msg =>
        by_cases hq : isQuotaMessage msg
        · simp [analyze_lyrics, hg, hq, attemptStep]
        · simp [analyze_lyrics, hg, hq, attemptStep]
      | ok data => simp [analyze_lyrics, hg, attemptStep]
  · rw [resetIfNewDay_fresh d u hf]

/-- A concrete analyze request (the §8 scenario of the design document). -/
def reqFix : AnalyzeRequest :=
  { lyrics := "Hello world", language := "en", title := none, artist := none }

/-- A concrete successful AI response: one line, no vocabulary. -/
def aiFix : AnalysisResult :=
  { title := some "Test", artist := some "T",
    lines := [{ line_index := 0, original_text := "Hello world",
                translation_text := "你好世界", grammar_notes := some "greeting" }],
    vocab := [] }

/-- C2 witness: with the default limit 5 and a never-seen user, attempt 5
(0-based 4) still passes, the 6th attempt on the same day is rejected with
429 whatever the AI oracle would have answered, and the fresh-day reset
yields counter 0. -/
theorem C2_daily_limit_witness :
    (rateLimitGate 5 0 (attemptsOn 5 0 4 ⟨0, none⟩)).isSome = true ∧
    analyze_lyrics 5 1 reqFix DB.empty (attemptsOn 5 0 5 ⟨0, none⟩) 0 (.ok aiFix)
      = (.error .quotaExceeded, attemptsOn 5 0 5 ⟨0, none⟩, DB.empty) ∧
    (resetIfNewDay 0 ⟨0, none⟩).daily_analysis_count = 0 :=
  ⟨(C2_daily_limit 5 0 1 ⟨0, none⟩ (by decide)).1 4 (by decide),
   (C2_daily_limit 5 0 1 ⟨0, none⟩ (by decide)).2.1 reqFix DB.empty (.ok aiFix),
   (C2_daily_limit 5 0 1 ⟨0, none⟩ (by decide)).2.2.2⟩

/-- C3: whenever the quota gate admits an attempt (committing row `u'`),
the user row after the whole `analyze` request is that committed `u'` for
every AI outcome — in particular a failed AI call leaves the incremented
counter in place, consuming one unit of the day's budget — and `u'` holds
exactly the post-reset counter plus one. -/
theorem C3_counter_persisted_on_failure (limit today uid : Nat)
    (req : AnalyzeRequest) (db : DB) (u u' : RLState)
    (h : rateLimitGate limit today u = some u') :
    (∀ ai, (analyze_lyrics limit uid req db u today ai).2.1 = u')
  ∧ (∀ msg, (analyze_lyrics limit uid req db u today (.error msg)).2.1 = u'
        ∧ (analyze_lyrics limit uid req db u today (.error msg)).2.2 = db)
  ∧ u'.daily_analysis_count
      = (resetIfNewDay today u).daily_analysis_count + 1 := by
  refine ⟨?_, ?_, ?_⟩
  · intro ai
    cases ai with
    | error msg =>
      by_cases hq : isQuotaMessage msg
      · simp [analyze_lyrics, h, hq]
      · simp [analyze_lyrics, h, hq]
    | ok data => simp [analyze_lyrics, h]
  · intro msg
    by_cases hq : isQuotaMessage msg
    · simp [analyze_lyrics, h, hq]
    · simp [analyze_lyrics, h, hq]
  · unfold rateLimitGate at h
    by_cases hle : limit ≤ (resetIfNewDay today u).daily_analysis_count
    · simp [hle] at h
    · simp [hle] at h
      rw [← h]

/-- C3 witness: a fresh user's first attempt commits counter 1; the AI
call then fails (`"boom"`), yet the row after the request still holds
counter 1 stamped with the day, and the database is untouched. -/
theorem C3_counter_persisted_on_failure_witness :
    ((analyze_lyrics 5 1 reqFix DB.empty ⟨0, none⟩ 0 (.error "boom")).2.1
        = ⟨1, some 0⟩
      ∧ (analyze_lyrics 5 1 reqFix DB.empty ⟨0, none⟩ 0 (.error "boom")).2.2
        = DB.empty) ∧
    (⟨1, some 0⟩ : RLState).daily_analysis_count
      = (resetIfNewDay 0 ⟨0, none⟩).daily_analysis_count + 1 :=
  ⟨(C3_counter_persisted_on_failure 5 0 1 reqFix DB.empty ⟨0, none⟩
      ⟨1, some 0⟩ (by rfl)).2.1 "boom",
   (C3_counter_persisted_on_failure 5 0 1 reqFix DB.empty ⟨0, none⟩
      ⟨1, some 0⟩ (by rfl)).2.2⟩

/-! ## C4 — title/artist resolution -/

/-- Inversion of a successful analyze call: the returned song and
committed database are those of the two-phase persistence, and the quota
gate admitted the attempt. -/
theorem analyze_ok_elim {limit uid today : Nat} {req : AnalyzeRequest}
    {db : DB} {u u' : RLState} {data : AnalysisResult} {song : Song} {db' : DB}
    (h : analyze_lyrics limit uid req db u today (.ok data) = (.ok song, u', db')) :
    song = (saveAnalysis db uid req data true).2
  ∧ db' = (saveAnalysis db uid req data true).1
  ∧ rateLimitGate limit today u = some u' := by
  cases hg : rateLimitGate limit today u with
  | none => simp [analyze_lyrics, hg] at h
  | some u'' =>
    simp only [analyze_lyrics, hg] at h
    simp only [Prod.mk.injEq, Except.ok.injEq] at h
    obtain ⟨h1, h2, h3⟩ := h
    exact ⟨h1.symm, h3.symm, congrArg some h2⟩

/-- A caller-supplied non-blank value wins the resolution. -/
theorem resolveMeta_supplied (sup aiv : Option String) (s : String)
    (h1 : sup = some s) (h2 : pyStripS s ≠ "") : resolveMeta sup aiv = s := by
  subst h1
  have hne : s ≠ "" := by
    intro he
    subst he
    exact h2 rfl
  simp [resolveMeta, hne, h2]

/-- With no usable caller value the AI value is used, with fallback
`"Unknown"`. -/
theorem resolveMeta_ai (sup aiv : Option String)
    (hsup : sup = none ∨ ∃ s, sup = some s ∧ pyStripS s = "") :
    resolveMeta sup aiv = aiv.getD "Unknown" := by
  rcases hsup with h | ⟨s, hs, ht⟩
  · subst h; rfl
  · subst hs
    simp [resolveMeta, ht]

/-- C4 counterexample: a commit with no caller-supplied artist and no
AI-extracted artist stores the artist `"Unknown"`, not the literal
`"Unknown Artist"` stated by the claim. -/
def reqNoMeta : AnalyzeRequest :=
  { lyrics := "la la", language := "en", title := none, artist := none }

/-- An AI response carrying neither title nor artist key. -/
def aiNoMeta : AnalysisResult :=
  { title := none, artist := none, lines := [], vocab := [] }

/-- C4 counterexample: with `title`/`artist` absent from both the request
and the AI output, the committed song's artist is `"Unknown"` — the fixed
fallback is not `"Unknown Artist"`. -/
theorem C4_artist_fallback_cex :
    ((analyze_lyrics 5 1 reqNoMeta DB.empty ⟨0, none⟩ 0
        (.ok aiNoMeta)).2.2.songs.map (fun s => s.artist)) = ["Unknown"]
  ∧ ¬ ((analyze_lyrics 5 1 reqNoMeta DB.empty ⟨0, none⟩ 0
        (.ok aiNoMeta)).2.2.songs.map (fun s => s.artist)) = ["Unknown Artist"] := by
  constructor
  · rfl
  · decide

/-- C4 (amended): for every successful analyze commit, title and artist
are resolved with precedence caller-supplied non-blank value, else
AI-extracted value, else the fixed fallback literal — which is `"Unknown"`
for the title **and also `"Unknown"` for the artist** (not
`"Unknown Artist"`). -/
theorem C4_meta_precedence (limit today uid : Nat) (req : AnalyzeRequest)
    (db : DB) (u u' : RLState) (data : AnalysisResult) (song : Song) (db' : DB)
    (h : analyze_lyrics limit uid req db u today (.ok data) = (.ok song, u', db')) :
    (∀ s, req.title = some s → pyStripS s ≠ "" → song.title = s)
  ∧ (∀ v, data.title = some v →
        (req.title = none ∨ ∃ s, req.title = some s ∧ pyStripS s = "") →
        song.title = v)
  ∧ (data.title = none →
        (req.title = none ∨ ∃ s, req.title = some s ∧ pyStripS s = "") →
        song.title = "Unknown")
  ∧ (∀ s, req.artist = some s → pyStripS s ≠ "" → song.artist = s)
  ∧ (∀ v, data.artist = some v →
        (req.artist = none ∨ ∃ s, req.artist = some s ∧ pyStripS s = "") →
        song.artist = v)
  ∧ (data.artist = none →
        (req.artist = none ∨ ∃ s, req.artist = some s ∧ pyStripS s = "") →
        song.artist = "Unknown") := by
  obtain ⟨hsong, -, -⟩ := analyze_ok_elim h
  have htitle : song.title = resolveMeta req.title data.title := by
    rw [hsong]; rfl
  have hartist : song.artist = resolveMeta req.artist data.artist := by
    rw [hsong]; rfl
  refine ⟨?_, ?_, ?_, ?_, ?_, ?_⟩
  · intro s h1 h2
    rw [htitle, resolveMeta_supplied _ _ s h1 h2]
  · intro v hv hsup
    rw [htitle, resolveMeta_ai _ _ hsup, hv]
    rfl
  · intro hv hsup
    rw [htitle, resolveMeta_ai _ _ hsup, hv]
    rfl
  · intro s h1 h2
    rw [hartist, resolveMeta_supplied _ _ s h1 h2]
  · intro v hv hsup
    rw [hartist, resolveMeta_ai _ _ hsup, hv]
    rfl
  · intro hv hsup
    rw [hartist, resolveMeta_ai _ _ hsup, hv]
    rfl

/-- The song committed by the §8 scenario analyze call. -/
def songFix : Song :=
  { id := 0, title := "Test", artist := "T", source_text := "Hello world",
    language := "en", user_id := 1 }

/-- Its single line row. -/
def lineFix : LyricsLine :=
  { id := 1, song_id := 0, line_index := 0, original_text := "Hello world",
    translation_text := "你好世界", grammar_notes := "greeting" }

/-- The database after the §8 scenario analyze call on an empty store. -/
def dbAfterFix : DB :=
  { songs := [songFix], lines := [lineFix], vocab_cards := [], next_id := 2 }

/-- C4 witness: in the §8 scenario (no caller title/artist, AI returns
`"Test"`/`"T"`) the committed song carries the AI-extracted values. -/
theorem C4_meta_precedence_witness :
    songFix.title = "Test" ∧ songFix.artist = "T" :=
  ⟨(C4_meta_precedence 5 0 1 reqFix DB.empty ⟨0, none⟩ ⟨1, some 0⟩ aiFix
      songFix dbAfterFix (by rfl)).2.1 "Test" (by rfl) (Or.inl (by rfl)),
   (C4_meta_precedence 5 0 1 reqFix DB.empty ⟨0, none⟩ ⟨1, some 0⟩ aiFix
      songFix dbAfterFix (by rfl)).2.2.2.2.1 "T" (by rfl) (Or.inl (by rfl))⟩

/-! ## C8 — line indices of a committed analysis -/

/-- The rows built from the AI `lines` array carry its `line_index` values
verbatim, in order. -/
theorem mkLines_map_line_index (sid : Nat) (lds : List LineData) :
    ∀ nid, (mkLines nid sid lds).map (fun l => l.line_index)
      = lds.map (fun ld => ld.line_index) := by
  induction lds with
  | nil => intro nid; rfl
  | cons ld rest ih => intro nid; simp [mkLines, ih]

/-- Every row built from the AI `lines` array belongs to the given song. -/
theorem mkLines_song_id (sid : Nat) (lds : List LineData) :
    ∀ nid, ∀ l ∈ mkLines nid sid lds, l.song_id = sid := by
  induction lds with
  | nil => intro nid l hl; cases hl
  | cons ld rest ih =>
    intro nid l hl
    rcases List.mem_cons.mp hl with h | h
    · subst h; rfl
    · exact ih _ l h

/-- One row per entry of the AI `lines` array. -/
theorem mkLines_length (sid : Nat) (lds : List LineData) :
    ∀ nid, (mkLines nid sid lds).length = lds.length := by
  induction lds with
  | nil => intro nid; rfl
  | cons ld rest ih => intro nid; simp [mkLines, ih]

/-- Every row built from the AI `vocab` array belongs to the given song. -/
theorem mkVocab_song_id (sid : Nat) (vds : List VocabData) :
    ∀ nid, ∀ v ∈ mkVocab nid sid vds, v.song_id = sid := by
  induction vds with
  | nil => intro nid v hv; cases hv
  | cons vd rest ih =>
    intro nid v hv
    rcases List.mem_cons.mp hv with h | h
    · subst h; rfl
    · exact ih _ v h

/-- One row per entry of the AI `vocab` array. -/
theorem mkVocab_length (sid : Nat) (vds : List VocabData) :
    ∀ nid, (mkVocab nid sid vds).length = vds.length := by
  induction vds with
  | nil => intro nid; rfl
  | cons vd rest ih => intro nid; simp [mkVocab, ih]

/-- An AI response whose only line entry carries `line_index = 5`. -/
def aiBadIndex : AnalysisResult :=
  { title := none, artist := none,
    lines := [{ line_index := 5, original_text := "only line",
                translation_text := "唯一的一行", grammar_notes := none }],
    vocab := [] }

/-- C8 counterexample: a successful analyze call whose (sanitized,
well-parsed) AI output enumerates its single line as `line_index = 5`
commits a song whose stored line-index sequence is `[5]`, not the gapless
`0..n-1` (which would be `[0]` for `n = 1`) stated by the claim. -/
theorem C8_line_index_cex :
    (linesOfSong (analyze_lyrics 5 1 reqNoMeta DB.empty ⟨0, none⟩ 0
          (.ok aiBadIndex)).2.2 0).map (fun l => l.line_index) = [5]
  ∧ aiBadIndex.lines.length = 1
  ∧ ¬ (linesOfSong (analyze_lyrics 5 1 reqNoMeta DB.empty ⟨0, none⟩ 0
          (.ok aiBadIndex)).2.2 0).map (fun l => l.line_index) = [0] := by
  refine ⟨rfl, rfl, ?_⟩
  decide

/-- C8 (amended): a successful analyze call commits exactly one line row
per entry of the (sanitized) AI output, in order, with `line_index` copied
verbatim from the AI entries — the indices are `0..n-1` exactly when the
AI enumerated them so, which the code does not enforce.  `hfresh` is the
auto-increment freshness of the store: no existing line row points at the
yet-unallocated song id. -/
theorem C8_line_indices_copied (limit today uid : Nat) (req : AnalyzeRequest)
    (db : DB) (u u' : RLState) (data : AnalysisResult) (song : Song) (db' : DB)
    (h : analyze_lyrics limit uid req db u today (.ok data) = (.ok song, u', db'))
    (hfresh : ∀ l ∈ db.lines, l.song_id ≠ db.next_id) :
    (linesOfSong db' song.id).map (fun l => l.line_index)
      = data.lines.map (fun ld => ld.line_index)
  ∧ (linesOfSong db' song.id).length = data.lines.length := by
  obtain ⟨hsong, hdb', -⟩ := analyze_ok_elim h
  have hid : song.id = db.next_id := by rw [hsong]; rfl
  have hlines : db'.lines
      = db.lines ++ mkLines (db.next_id + 1) db.next_id data.lines := by
    rw [hdb']; rfl
  have hfilter : linesOfSong db' song.id
      = mkLines (db.next_id + 1) db.next_id data.lines := by
    rw [linesOfSong, hlines, hid, List.filter_append]
    have hnil : db.lines.filter (fun l => l.song_id == db.next_id) = [] := by
      rw [List.filter_eq_nil_iff]
      intro l hl
      simpa using hfresh l hl
    have hall : (mkLines (db.next_id + 1) db.next_id data.lines).filter
        (fun l => l.song_id == db.next_id)
        = mkLines (db.next_id + 1) db.next_id data.lines := by
      rw [List.filter_eq_self]
      intro l hl
      simpa using mkLines_song_id db.next_id data.lines _ l hl
    rw [hnil, hall, List.nil_append]
  rw [hfilter, mkLines_map_line_index, mkLines_length]
  exact ⟨rfl, rfl⟩

/-- C8 witness: the §8 scenario call on an empty store commits one line
with index sequence `[0]`, matching the AI output's enumeration. -/
theorem C8_line_indices_copied_witness :
    ((linesOfSong dbAfterFix songFix.id).map (fun l => l.line_index)
        = aiFix.lines.map (fun ld => ld.line_index)
      ∧ (linesOfSong dbAfterFix songFix.id).length = aiFix.lines.length) :=
  C8_line_indices_copied 5 0 1 reqFix DB.empty ⟨0, none⟩ ⟨1, some 0⟩ aiFix
    songFix dbAfterFix (by rfl) (by simp [DB.empty])

/-! ## C1 — the persistence of an analysis is two commits, not one -/

/-- A song appended with a fresh id is found by a primary-key lookup. -/
theorem find?_fresh_song (l : List Song) (song : Song)
    (hs : ∀ s ∈ l, s.id ≠ song.id) :
    (l ++ [song]).find? (fun s => s.id == song.id) = some song := by
  rw [List.find?_append]
  have h1 : l.find? (fun s => s.id == song.id) = none := by
    rw [List.find?_eq_none]
    intro s hsmem
    simpa using hs s hsmem
  rw [h1]
  simp

/-- C1 counterexample: on an empty store, run the persistence of the §8
scenario result (one AI line) with the second commit failing: the
committed Song is visible to a plain `get_song`, with zero lines and zero
vocab cards — a partial song, although the AI reported one line.  The
persistence is therefore not one atomic unit. -/
theorem C1_partial_song_cex :
    get_song (saveAnalysis DB.empty 1 reqFix aiFix false).1 1 0
      = .ok (saveAnalysis DB.empty 1 reqFix aiFix false).2
  ∧ linesOfSong (saveAnalysis DB.empty 1 reqFix aiFix false).1 0 = []
  ∧ vocabOfSong (saveAnalysis DB.empty 1 reqFix aiFix false).1 0 = []
  ∧ aiFix.lines.length = 1 :=
  ⟨rfl, rfl, rfl, rfl⟩

/-- C1 (amended): the persistence of a successful analyze call runs as two
successive commits — the Song row alone first, then all its lines and
vocab cards together.  When both commits run, the full batch is visible;
when the second commit fails, the Song remains visible with zero lines and
zero vocab cards (only the lines+vocab batch is atomic, not the whole
Song).  The freshness hypotheses say no existing row uses the
yet-unallocated id.  The last conjunct ties every successful `analyze`
call to this two-phase persistence. -/
theorem C1_two_phase_commit (db : DB) (uid : Nat) (req : AnalyzeRequest)
    (data : AnalysisResult)
    (hs : ∀ s ∈ db.songs, s.id ≠ db.next_id)
    (hl : ∀ l ∈ db.lines, l.song_id ≠ db.next_id)
    (hv : ∀ v ∈ db.vocab_cards, v.song_id ≠ db.next_id) :
    (get_song (saveAnalysis db uid req data true).1 uid
        (saveAnalysis db uid req data true).2.id
      = .ok (saveAnalysis db uid req data true).2
    ∧ (linesOfSong (saveAnalysis db uid req data true).1
        (saveAnalysis db uid req data true).2.id).length = data.lines.length
    ∧ (vocabOfSong (saveAnalysis db uid req data true).1
        (saveAnalysis db uid req data true).2.id).length = data.vocab.length)
  ∧ (get_song (saveAnalysis db uid req data false).1 uid
        (saveAnalysis db uid req data false).2.id
      = .ok (saveAnalysis db uid req data false).2
    ∧ linesOfSong (saveAnalysis db uid req data false).1
        (saveAnalysis db uid req data false).2.id = []
    ∧ vocabOfSong (saveAnalysis db uid req data false).1
        (saveAnalysis db uid req data false).2.id = [])
  ∧ (∀ limit today u u' song' db',
        analyze_lyrics limit uid req db u today (.ok data) = (.ok song', u', db') →
        db' = (saveAnalysis db uid req data true).1
          ∧ song' = (saveAnalysis db uid req data true).2) := by
  have hsid : (saveAnalysis db uid req data true).2.id = db.next_id := rfl
  have hsidF : (saveAnalysis db uid req data false).2.id = db.next_id := rfl
  have huser : (saveAnalysis db uid req data true).2.user_id = uid := rfl
  have hsame : (saveAnalysis db uid req data false).2
      = (saveAnalysis db uid req data true).2 := rfl
  have hfreshT : ∀ s ∈ db.songs, s.id ≠ (saveAnalysis db uid req data true).2.id := by
    rw [hsid]; exact hs
  have hgetT : get_song (saveAnalysis db uid req data true).1 uid
      (saveAnalysis db uid req data true).2.id
      = .ok (saveAnalysis db uid req data true).2 := by
    unfold get_song
    have hfind := find?_fresh_song db.songs (saveAnalysis db uid req data true).2 hfreshT
    have hsongs : (saveAnalysis db uid req data true).1.songs
        = db.songs ++ [(saveAnalysis db uid req data true).2] := rfl
    rw [hsongs, hfind]
    simp [huser]
  have hgetF : get_song (saveAnalysis db uid req data false).1 uid
      (saveAnalysis db uid req data false).2.id
      = .ok (saveAnalysis db uid req data false).2 := by
    unfold get_song
    have hfind := find?_fresh_song db.songs (saveAnalysis db uid req data true).2 hfreshT
    have hsongs : (saveAnalysis db uid req data false).1.songs
        = db.songs ++ [(saveAnalysis db uid req data true).2] := rfl
    rw [hsame, hsongs, hfind]
    simp [huser]
  have hfilterNilL : db.lines.filter
      (fun l => l.song_id == db.next_id) = [] := by
    rw [List.filter_eq_nil_iff]
    intro l hlmem
    simpa using hl l hlmem
  have hfilterNilV : db.vocab_cards.filter
      (fun v => v.song_id == db.next_id) = [] := by
    rw [List.filter_eq_nil_iff]
    intro v hvmem
    simpa using hv v hvmem
  refine ⟨⟨hgetT, ?_, ?_⟩, ⟨hgetF, ?_, ?_⟩, ?_⟩
  · have hlines : (saveAnalysis db uid req data true).1.lines
        = db.lines ++ mkLines (db.next_id + 1) db.next_id data.lines := rfl
    rw [linesOfSong, hsid, hlines, List.filter_append, hfilterNilL,
      List.nil_append]
    have hall : (mkLines (db.next_id + 1) db.next_id data.lines).filter
        (fun l => l.song_id == db.next_id)
        = mkLines (db.next_id + 1) db.next_id data.lines := by
      rw [List.filter_eq_self]
      intro l hlmem
      simpa using mkLines_song_id db.next_id data.lines _ l hlmem
    rw [hall, mkLines_length]
  · have hvocab : (saveAnalysis db uid req data true).1.vocab_cards
        = db.vocab_cards
          ++ mkVocab (db.next_id + 1 + data.lines.length) db.next_id data.vocab := rfl
    rw [vocabOfSong, hsid, hvocab, List.filter_append, hfilterNilV,
      List.nil_append]
    have hall : (mkVocab (db.next_id + 1 + data.lines.length) db.next_id
          data.vocab).filter (fun v => v.song_id == db.next_id)
        = mkVocab (db.next_id + 1 + data.lines.length) db.next_id data.vocab := by
      rw [List.filter_eq_self]
      intro v hvmem
      simpa using mkVocab_song_id db.next_id data.vocab _ v hvmem
    rw [hall, mkVocab_length]
  · have hlines : (saveAnalysis db uid req data false).1.lines = db.lines := rfl
    rw [linesOfSong, hsidF, hlines, hfilterNilL]
  · have hvocab : (saveAnalysis db uid req data false).1.vocab_cards
        = db.vocab_cards := rfl
    rw [vocabOfSong, hsidF, hvocab, hfilterNilV]
  · intro limit today u u' song' db' h
    obtain ⟨h1, h2, -⟩ := analyze_ok_elim h
    exact ⟨h2, h1⟩

/-- C1 witness: on the empty store with the §8 scenario data, the full
batch is visible after both commits, and the zero-line partial song is
what remains when the second commit fails. -/
theorem C1_two_phase_commit_witness :
    (get_song (saveAnalysis DB.empty 1 reqFix aiFix true).1 1
        (saveAnalysis DB.empty 1 reqFix aiFix true).2.id
      = .ok (saveAnalysis DB.empty 1 reqFix aiFix true).2
    ∧ (linesOfSong (saveAnalysis DB.empty 1 reqFix aiFix true).1
        (saveAnalysis DB.empty 1 reqFix aiFix true).2.id).length
      = aiFix.lines.length)
  ∧ linesOfSong (saveAnalysis DB.empty 1 reqFix aiFix false).1
      (saveAnalysis DB.empty 1 reqFix aiFix false).2.id = [] :=
  ⟨⟨(C1_two_phase_commit DB.empty 1 reqFix aiFix (by simp [DB.empty])
        (by simp [DB.empty]) (by simp [DB.empty])).1.1,
    (C1_two_phase_commit DB.empty 1 reqFix aiFix (by simp [DB.empty])
        (by simp [DB.empty]) (by simp [DB.empty])).1.2.1⟩,
   (C1_two_phase_commit DB.empty 1 reqFix aiFix (by simp [DB.empty])
        (by simp [DB.empty]) (by simp [DB.empty])).2.1.2.1⟩

/-! ## C5 — defensive fence stripping before JSON parsing -/

/-- A list starts with itself followed by anything. -/
theorem startsWithL_append (p t : List Char) : startsWithL p (p ++ t) = true := by
  induction p with
  | nil => rfl
  | cons c cs ih => simp [startsWithL, ih]

/-- A list ends with its own suffix. -/
theorem endsWithL_append (u q : List Char) : endsWithL q (u ++ q) = true := by
  unfold endsWithL
  rw [List.reverse_append]
  exact startsWithL_append q.reverse u.reverse

/-- Dropping the trailing fence marker from a text that ends in one. -/
theorem stripTrailingFence_append (u : List Char) :
    stripTrailingFence (u ++ fenceBare) = u := by
  unfold stripTrailingFence
  rw [endsWithL_append]
  have h3 : fenceBare.length = 3 := rfl
  have hlen : (u ++ fenceBare).length - 3 = u.length := by
    rw [List.length_append, h3]
    omega
  simp only [if_true]
  rw [hlen]
  exact List.take_left u fenceBare

/-- A text without a trailing fence marker is left unchanged. -/
theorem stripTrailingFence_no (u : List Char)
    (h : endsWithL fenceBare u = false) : stripTrailingFence u = u := by
  simp [stripTrailingFence, h]

/-- C5: the sanitization step of the AI client strips a leading fence
marker — the literal json-language fence `fenceJson` (checked first) or a
bare fence `fenceBare` — and then a trailing bare fence marker, each only
when present; a response bearing no fence markers passes through the step
unchanged (the surrounding whitespace strips of the pipeline are separate,
see `sanitizeResponse`). -/
theorem C5_fence_stripping (s t : List Char) :
    (s = fenceJson ++ t → endsWithL fenceBare t = false → stripFences s = t)
  ∧ (s = fenceJson ++ t ++ fenceBare → stripFences s = t)
  ∧ (startsWithL fenceJson s = false → s = fenceBare ++ t →
        endsWithL fenceBare t = false → stripFences s = t)
  ∧ (startsWithL fenceJson s = false → s = fenceBare ++ t ++ fenceBare →
        stripFences s = t)
  ∧ (startsWithL fenceJson s = false → startsWithL fenceBare s = false →
        s = t ++ fenceBare → stripFences s = t)
  ∧ (startsWithL fenceJson s = false → startsWithL fenceBare s = false →
        endsWithL fenceBare s = false → stripFences s = s) := by
  have hdropJson : ∀ r : List Char, stripLeadingFence (fenceJson ++ r) = r := by
    intro r
    unfold stripLeadingFence
    rw [startsWithL_append]
    simp only [if_true]
    exact List.drop_left' (by rfl)
  have hdropBare : ∀ r : List Char, startsWithL fenceJson (fenceBare ++ r) = false →
      stripLeadingFence (fenceBare ++ r) = r := by
    intro r hj
    unfold stripLeadingFence
    rw [hj, startsWithL_append]
    simp only [Bool.false_eq_true, if_false, if_true]
    exact List.drop_left' (by rfl)
  have hnolead : ∀ r : List Char, startsWithL fenceJson r = false →
      startsWithL fenceBare r = false → stripLeadingFence r = r := by
    intro r hj hb
    simp [stripLeadingFence, hj, hb]
  refine ⟨?_, ?_, ?_, ?_, ?_, ?_⟩
  · intro hse hte
    subst hse
    rw [stripFences, hdropJson, stripTrailingFence_no t hte]
  · intro hse
    subst hse
    rw [stripFences, List.append_assoc, hdropJson, stripTrailingFence_append]
  · intro hj hse hte
    subst hse
    rw [stripFences, hdropBare t hj, stripTrailingFence_no t hte]
  · intro hj hse
    rw [stripFences, hse, List.append_assoc,
      hdropBare (t ++ fenceBare) (by rw [← List.append_assoc, ← hse]; exact hj),
      stripTrailingFence_append]
  · intro hj hb hse
    subst hse
    rw [stripFences, hnolead _ hj hb, stripTrailingFence_append]
  · intro hj hb hte
    rw [stripFences, hnolead s hj hb, stripTrailingFence_no s hte]

/-- C5 witness: the fenced response made of a json fence, the body
`abc` and a closing fence is stripped to its body. -/
theorem C5_fence_stripping_witness :
    stripFences "```jsonabc```".data = "abc".data :=
  (C5_fence_stripping "```jsonabc```".data "abc".data).2.1 (by rfl)

end LyriStudy
